import Mathlib

/-!
Verification of the power-monitor bot (`src/app.py`): a shallow embedding of
its battery-snapshot probe chain, monitor-loop transition detection,
subscriber registry with atomic persistence, notification fan-out, access
control, and status-text formatting, together with theorems settling the
specification's claims about those components.
-/

/-- One battery reading, as returned by the adapter helpers in `app.py`
(`{percent, power_plugged, secsleft, source}`).  `percent` is a Python float
(`None` allowed), `power_plugged` a Python bool or `None`, `secsleft` an int
or `None`. -/
structure Snapshot where
  percent : Option ℚ
  power_plugged : Option Bool
  secsleft : Option Int
  source : String
  deriving DecidableEq

/-- Python truthiness of a value that is either a bool or `None`:
`bool(None) = False`, `bool(b) = b`.  Used for `bool(b.power_plugged)` and
`bool(data.get("plugged"))`. -/
def pyBoolOpt (v : Option Bool) : Bool := v.getD false

/-- Python truthiness of an int (`if x:` keeps nonzero ids). -/
def pyTruthyInt (n : Int) : Bool := n != 0

/-- Python truthiness of a string (nonempty). -/
def pyTruthyStr (s : String) : Bool := !s.isEmpty

/-- The two fixed notification texts of `_monitor_loop`, keyed by the new
plugged value. -/
def transitionMessage (plugged : Bool) : String :=
  if plugged then "🔌 **Power is ON now**" else "⚡ **Power is OFF now**"

/-- One iteration of the body of `PowerMonitorBot._monitor_loop`
(lines 633-652): given the remembered `prev_plugged` and the tick's snapshot
(`none` = no snapshot available), returns the new `prev_plugged` and the
notification text sent this tick, if any. -/
def monitorStep (prev : Option Bool) (snap : Option Snapshot) :
    Option Bool × Option String :=
  match snap with
  | some s =>
    match prev with
    | none => (s.power_plugged, none)
    | some pv =>
      match s.power_plugged with
      | some p =>
        if p ≠ pv then (some p, some (transitionMessage p))
        else (some pv, none)
      | none => (some pv, none)
  | none => (prev, none)

/-- The monitor loop run over a finite tick sequence: final `prev_plugged`
and the list of notification texts emitted, in order. -/
def monitorRun : Option Bool → List (Option Snapshot) → Option Bool × List String
  | prev, [] => (prev, [])
  | prev, s :: rest =>
    ((monitorRun (monitorStep prev s).1 rest).1,
     (monitorStep prev s).2.toList ++ (monitorRun (monitorStep prev s).1 rest).2)

/-- The initial read of `_monitor_loop` (lines 627-632): `prev_plugged` is set
from the first snapshot when available and to `None` otherwise (it is already
`None` from `__init__`). -/
def monitorInitPrev (snap : Option Snapshot) : Option Bool :=
  match snap with
  | some s => s.power_plugged
  | none => none

/-- `_monitor_loop` as a whole: the pre-loop initialization read followed by
the polling loop over the remaining ticks. -/
def monitorLoop (initSnap : Option Snapshot) (ticks : List (Option Snapshot)) :
    Option Bool × List String :=
  monitorRun (monitorInitPrev initSnap) ticks

/-- The known plugged values of a sample sequence: unavailable snapshots and
unknown plugged values are dropped. -/
def knownPlugged (samples : List (Option Snapshot)) : List Bool :=
  samples.filterMap (fun s => s.bind Snapshot.power_plugged)

/-- Spec-side count of `true↔false` changes between consecutive known plugged
values. -/
def countChanges : List Bool → Nat
  | a :: b :: rest => (if a ≠ b then 1 else 0) + countChanges (b :: rest)
  | _ => 0

/-- Spec-side expected notification list: one message per change between
consecutive known plugged values, keyed by the new value. -/
def specNotifications : List Bool → List String
  | a :: b :: rest =>
    (if a ≠ b then [transitionMessage b] else []) ++ specNotifications (b :: rest)
  | _ => []

theorem monitorRun_tracking (samples : List (Option Snapshot)) :
    ∀ pv : Bool,
      (monitorRun (some pv) samples).2 = specNotifications (pv :: knownPlugged samples) := by
  induction samples with
  | nil => intro pv; rfl
  | cons s rest ih =>
    intro pv
    cases s with
    | none =>
      simp [monitorRun, monitorStep, knownPlugged, ih pv]
    | some snap =>
      cases hp : snap.power_plugged with
      | none =>
        have ih' := ih pv
        simp [knownPlugged] at ih' ⊢
        simpa [monitorRun, monitorStep, hp] using ih'
      | some p =>
        by_cases hpv : p = pv
        · subst hpv
          have ih' := ih p
          simp [knownPlugged] at ih' ⊢
          simp [monitorRun, monitorStep, hp, specNotifications, ih']
        · have hvp : pv ≠ p := Ne.symm hpv
          have ih' := ih p
          simp [knownPlugged] at ih' ⊢
          simp [monitorRun, monitorStep, hp, specNotifications, hpv, hvp, ih']

theorem monitorRun_uninit (samples : List (Option Snapshot)) :
    (monitorRun none samples).2 = specNotifications (knownPlugged samples) := by
  induction samples with
  | nil => rfl
  | cons s rest ih =>
    cases s with
    | none =>
      simp [knownPlugged] at ih ⊢
      simpa [monitorRun, monitorStep] using ih
    | some snap =>
      cases hp : snap.power_plugged with
      | none =>
        simp [knownPlugged] at ih ⊢
        simpa [monitorRun, monitorStep, hp] using ih
      | some p =>
        have ht := monitorRun_tracking rest p
        simp [knownPlugged] at ht ⊢
        simpa [monitorRun, monitorStep, hp] using ht

theorem specNotifications_length :
    ∀ l : List Bool, (specNotifications l).length = countChanges l
  | [] => rfl
  | [_] => rfl
  | a :: b :: rest => by
    have ih := specNotifications_length (b :: rest)
    by_cases h : a = b <;>
      simp [specNotifications, countChanges, h, ih, Nat.add_comm]

/-- C1: over any finite sample sequence, the monitor loop's notification list
is exactly one message per `true↔false` change between consecutive known
plugged values of available snapshots (unavailable and unknown samples are
skipped), each message keyed by the new plugged value; in particular the
number of notification fan-out calls equals the number of such changes. -/
theorem monitor_notifications_match_transitions :
    ∀ (initSnap : Option Snapshot) (ticks : List (Option Snapshot)),
      (monitorLoop initSnap ticks).2 =
        specNotifications (knownPlugged (initSnap :: ticks)) ∧
      ((monitorLoop initSnap ticks).2).length =
        countChanges (knownPlugged (initSnap :: ticks)) := by
  intro i ts
  have h : (monitorLoop i ts).2 = specNotifications (knownPlugged (i :: ts)) := by
    cases i with
    | none =>
      simpa [monitorLoop, monitorInitPrev, knownPlugged] using monitorRun_uninit ts
    | some snap =>
      cases hp : snap.power_plugged with
      | none =>
        have h0 := monitorRun_uninit ts
        simp [knownPlugged] at h0 ⊢
        simpa [monitorLoop, monitorInitPrev, hp] using h0
      | some p =>
        have h0 := monitorRun_tracking ts p
        simp [knownPlugged] at h0 ⊢
        simpa [monitorLoop, monitorInitPrev, hp] using h0
  exact ⟨h, by rw [h, specNotifications_length]⟩

/-- C2: an unavailable sample never changes the remembered previous plugged
state and emits nothing; any run of N consecutive unavailable samples leaves
the state and the notification list unchanged; and once the state is a known
value it is never reset to unknown by any sample. -/
theorem unavailable_samples_preserve_state :
    (∀ prev : Option Bool, monitorStep prev none = (prev, none)) ∧
    (∀ (n : Nat) (prev : Option Bool),
      monitorRun prev (List.replicate n none) = (prev, [])) ∧
    (∀ (pv : Bool) (snap : Option Snapshot),
      ((monitorStep (some pv) snap).1).isSome = true) := by
  refine ⟨fun prev => rfl, ?_, ?_⟩
  · intro n
    induction n with
    | zero => intro prev; rfl
    | succ k ih => intro prev; simp [List.replicate, monitorRun, monitorStep, ih]
  · intro pv snap
    cases snap with
    | none => rfl
    | some s =>
      cases hp : s.power_plugged with
      | none => simp [monitorStep, hp]
      | some p => by_cases h : p = pv <;> simp [monitorStep, hp, h]

/-- C3: from the uninitialized state, any available snapshot moves the
remembered state to its plugged value (Tracking it when known) and never
emits a notification, regardless of the value read. -/
theorem first_known_sample_is_baseline :
    (∀ s : Snapshot, monitorStep none (some s) = (s.power_plugged, none)) ∧
    (∀ snap : Option Snapshot, (monitorStep none snap).2 = none) := by
  constructor
  · intro s; rfl
  · intro snap; cases snap <;> rfl

/-- The battery tuple returned by `psutil.sensors_battery()`: `percent`,
`power_plugged` (a bool in practice, coerced with `bool()` by the adapter,
so modelled as bool-or-None), `secsleft`. -/
structure PsutilBattery where
  percent : Option ℚ
  power_plugged : Option Bool
  secsleft : Option Int
  deriving DecidableEq

/-- `read_battery_psutil` (lines 99-113).  `psutilAvailable` models whether
the `psutil` import succeeded; `sensors` models the `psutil.sensors_battery()`
call, whose raised exception (`Except.error`) is caught by the adapter's own
`try/except` and turned into `None`. -/
def read_battery_psutil (psutilAvailable : Bool)
    (sensors : Except String (Option PsutilBattery)) : Option Snapshot :=
  if !psutilAvailable then none
  else
    match sensors with
    | .error _ => none
    | .ok none => none
    | .ok (some b) =>
      some { percent := b.percent
             power_plugged := some (pyBoolOpt b.power_plugged)
             secsleft := b.secsleft
             source := "psutil" }

/-- One directory under `/sys/class/power_supply`: whether the `status` and
`capacity` files exist, the stripped lowercased `status` contents
(`none` = the read raised), and the `float()` of the `capacity` contents
(`none` = the read or the conversion raised). -/
structure SysfsCandidate where
  name : String
  hasStatus : Bool
  hasCapacity : Bool
  statusRead : Option String
  capacityRead : Option ℚ
  deriving DecidableEq

/-- The status vocabulary that `read_battery_linux_sysfs` maps to
`plugged = True`. -/
def sysfsPluggedTokens : List String := ["charging", "full", "pending_charge"]

/-- The candidate loop of `read_battery_linux_sysfs` (lines 131-150): the
first candidate with both files present and readable wins; a read or parse
exception continues with the next candidate. -/
def sysfsScan : List SysfsCandidate → Option Snapshot
  | [] => none
  | c :: rest =>
    if c.hasStatus && c.hasCapacity then
      match c.statusRead, c.capacityRead with
      | some status, some percent =>
        some { percent := some percent
               power_plugged := some (sysfsPluggedTokens.contains status)
               secsleft := none
               source := "sysfs:" ++ c.name }
      | _, _ => sysfsScan rest
    else sysfsScan rest

/-- `read_battery_linux_sysfs` (lines 116-151): `none` when the base
directory is missing, otherwise the candidate scan. -/
def read_battery_linux_sysfs (baseIsDir : Bool)
    (candidates : List SysfsCandidate) : Option Snapshot :=
  if !baseIsDir then none else sysfsScan candidates

/-- The `percentage` field of the `termux-battery-status` JSON: absent key
(→ `percent = None`), a numeric value, or a value on which `float()` raises
(→ whole adapter returns `None`). -/
inductive TermuxPercentage where
  | absent
  | numeric (value : ℚ)
  | malformed
  deriving DecidableEq

/-- The parsed `termux-battery-status` JSON object, restricted to the fields
the adapter reads. -/
structure TermuxJson where
  percentage : TermuxPercentage
  plugged : Option Bool
  deriving DecidableEq

/-- `read_battery_termux` (lines 154-173).  `runResult` is
`subprocess.run`'s outcome (`none` = the call raised: command missing or
timeout), carrying the return code and stdout; `parsed` is the
`json.loads(stdout)` outcome (`none` = the parse raised).  All exceptions are
caught by the adapter's `try/except`. -/
def read_battery_termux (runResult : Option (Int × String))
    (parsed : Option TermuxJson) : Option Snapshot :=
  match runResult with
  | none => none
  | some (rc, out) =>
    if rc == 0 && !out.isEmpty then
      match parsed with
      | none => none
      | some data =>
        match data.percentage with
        | .malformed => none
        | .absent =>
          some { percent := none
                 power_plugged := some (pyBoolOpt data.plugged)
                 secsleft := none
                 source := "termux-battery-status" }
        | .numeric v =>
          some { percent := some v
                 power_plugged := some (pyBoolOpt data.plugged)
                 secsleft := none
                 source := "termux-battery-status" }
    else none

/-- `get_battery_snapshot` (lines 176-201), over the three adapter return
values: psutil is always tried first; on "linux" the sysfs fallback; on
"android" the termux fallback and then sysfs; on every other platform (the
explicit "windows" branch included) no further adapter is consulted. -/
def get_battery_snapshot (detected_platform : String)
    (psutilSt sysfsSt termuxSt : Option Snapshot) : Option Snapshot :=
  match psutilSt with
  | some st => some st
  | none =>
    if detected_platform == "linux" then
      match sysfsSt with
      | some st => some st
      | none => none
    else if detected_platform == "android" then
      match termuxSt with
      | some st => some st
      | none => sysfsSt
    else none

/-- The ordered list of adapter results the chain may consult for a given
platform hint. -/
def adapterOrder (detected_platform : String)
    (psutilSt sysfsSt termuxSt : Option Snapshot) : List (Option Snapshot) :=
  if detected_platform == "linux" then [psutilSt, sysfsSt]
  else if detected_platform == "android" then [psutilSt, termuxSt, sysfsSt]
  else [psutilSt]

theorem gbs_findSome (p : String) (ps sy tx : Option Snapshot) :
    get_battery_snapshot p ps sy tx = (adapterOrder p ps sy tx).findSome? id := by
  by_cases hl : (p == "linux") = true
  · cases ps <;> cases sy <;>
      simp [get_battery_snapshot, adapterOrder, hl, List.findSome?]
  · by_cases ha : (p == "android") = true
    · cases ps <;> cases sy <;> cases tx <;>
        simp [get_battery_snapshot, adapterOrder, hl, ha, List.findSome?]
    · cases ps <;>
        simp [get_battery_snapshot, adapterOrder, hl, ha, List.findSome?]

theorem gbs_result_from_adapter (p : String) (ps sy tx : Option Snapshot)
    (s : Snapshot) (h : get_battery_snapshot p ps sy tx = some s) :
    ps = some s ∨ sy = some s ∨ tx = some s := by
  by_cases hl : (p == "linux") = true
  · cases ps <;> cases sy <;>
      simp_all [get_battery_snapshot, hl]
  · by_cases ha : (p == "android") = true
    · cases ps <;> cases sy <;> cases tx <;>
        simp_all [get_battery_snapshot, hl, ha]
    · cases ps <;> simp_all [get_battery_snapshot, hl, ha]

/-- C4: the probe returns the first non-unavailable adapter result in the
fixed priority order determined by the platform hint (psutil first, sysfs
only on linux/android, termux only on android); adapters outside the hint
never influence the result; an adapter-internal exception is caught and
yields unavailability for that adapter; and when every applicable adapter is
unavailable the probe returns unavailable rather than raising. -/
theorem probe_chain_spec :
    (∀ (p : String) (ps sy tx : Option Snapshot),
      get_battery_snapshot p ps sy tx = (adapterOrder p ps sy tx).findSome? id) ∧
    (∀ (p : String) (ps sy sy' tx tx' : Option Snapshot),
      p ≠ "linux" → p ≠ "android" →
      get_battery_snapshot p ps sy tx = get_battery_snapshot p ps sy' tx') ∧
    (∀ ps sy tx tx' : Option Snapshot,
      get_battery_snapshot "linux" ps sy tx = get_battery_snapshot "linux" ps sy tx') ∧
    (∀ (avail : Bool) (e : String), read_battery_psutil avail (Except.error e) = none) ∧
    (∀ parsed : Option TermuxJson, read_battery_termux none parsed = none) ∧
    (∀ p : String, get_battery_snapshot p none none none = none) := by
  refine ⟨gbs_findSome, ?_, ?_, ?_, ?_, ?_⟩
  · intro p ps sy sy' tx tx' hl ha
    have hl' : (p == "linux") = false := by simpa using hl
    have ha' : (p == "android") = false := by simpa using ha
    cases ps <;> simp [get_battery_snapshot, hl', ha']
  · intro ps sy tx tx'
    cases ps <;> cases sy <;> simp [get_battery_snapshot]
  · intro avail e
    cases avail <;> rfl
  · intro parsed; rfl
  · intro p
    by_cases hl : (p == "linux") = true <;>
      by_cases ha : (p == "android") = true <;>
        simp [get_battery_snapshot, hl, ha]

/-- Witness for C4 at concrete inputs: on the "windows" hint the sysfs and
termux adapter values are irrelevant, and the hypotheses of the skipping
conjunct hold there. -/
theorem probe_chain_spec_witness :
    ("windows" : String) ≠ "linux" ∧ ("windows" : String) ≠ "android" ∧
    get_battery_snapshot "windows" none none none =
      get_battery_snapshot "windows" none
        (some ⟨some 80, some true, none, "sysfs:BAT0"⟩)
        (some ⟨some 60, some false, none, "termux-battery-status"⟩) :=
  ⟨by decide, by decide,
    probe_chain_spec.2.1 "windows" none none
      (some ⟨some 80, some true, none, "sysfs:BAT0"⟩) none
      (some ⟨some 60, some false, none, "termux-battery-status"⟩)
      (by decide) (by decide)⟩

/-- C9: every snapshot any adapter produces carries a definite boolean
plugged value (and so does any non-unavailable probe result): psutil coerces
with `bool()`, sysfs decides plugged by membership in the fixed token set,
and termux maps a JSON without a "plugged" key to `plugged = false`, never to
unknown. -/
theorem adapters_always_know_plugged :
    (∀ (avail : Bool) (sensors : Except String (Option PsutilBattery)) (s : Snapshot),
      read_battery_psutil avail sensors = some s → s.power_plugged.isSome = true) ∧
    (∀ (bdir : Bool) (cands : List SysfsCandidate) (s : Snapshot),
      read_battery_linux_sysfs bdir cands = some s → s.power_plugged.isSome = true) ∧
    (∀ (run : Option (Int × String)) (parsed : Option TermuxJson) (s : Snapshot),
      read_battery_termux run parsed = some s → s.power_plugged.isSome = true) ∧
    (∀ (run : Option (Int × String)) (data : TermuxJson) (s : Snapshot),
      data.plugged = none → read_battery_termux run (some data) = some s →
      s.power_plugged = some false) ∧
    (∀ (p : String) (avail : Bool) (sensors : Except String (Option PsutilBattery))
        (bdir : Bool) (cands : List SysfsCandidate)
        (run : Option (Int × String)) (parsed : Option TermuxJson) (s : Snapshot),
      get_battery_snapshot p (read_battery_psutil avail sensors)
        (read_battery_linux_sysfs bdir cands)
        (read_battery_termux run parsed) = some s →
      s.power_plugged.isSome = true) := by
  have hps : ∀ (avail : Bool) (sensors : Except String (Option PsutilBattery))
      (s : Snapshot), read_battery_psutil avail sensors = some s →
      s.power_plugged.isSome = true := by
    intro avail sensors s h
    cases avail with
    | false => simp [read_battery_psutil] at h
    | true =>
      match sensors with
      | .error e => simp [read_battery_psutil] at h
      | .ok none => simp [read_battery_psutil] at h
      | .ok (some b) =>
        simp [read_battery_psutil] at h
        simp [← h]
  have hsy : ∀ (bdir : Bool) (cands : List SysfsCandidate) (s : Snapshot),
      read_battery_linux_sysfs bdir cands = some s →
      s.power_plugged.isSome = true := by
    intro bdir cands s h
    cases bdir with
    | false => simp [read_battery_linux_sysfs] at h
    | true =>
      simp [read_battery_linux_sysfs] at h
      induction cands with
      | nil => simp [sysfsScan] at h
      | cons c rest ih =>
        by_cases hc : (c.hasStatus && c.hasCapacity) = true
        · match hst : c.statusRead, hcap : c.capacityRead with
          | some status, some percent =>
            simp [sysfsScan, hc, hst, hcap] at h
            simp [← h]
          | some status, none =>
            simp [sysfsScan, hc, hst, hcap] at h
            exact ih h
          | none, some percent =>
            simp [sysfsScan, hc, hst, hcap] at h
            exact ih h
          | none, none =>
            simp [sysfsScan, hc, hst, hcap] at h
            exact ih h
        · simp [sysfsScan, hc] at h
          exact ih h
  have htx : ∀ (run : Option (Int × String)) (parsed : Option TermuxJson)
      (s : Snapshot), read_battery_termux run parsed = some s →
      s.power_plugged.isSome = true := by
    intro run parsed s h
    match run with
    | none => simp [read_battery_termux] at h
    | some (rc, out) =>
      by_cases hro : (rc == 0 && !out.isEmpty) = true
      · match parsed with
        | none => simp [read_battery_termux, hro] at h
        | some data =>
          match hp : data.percentage with
          | .malformed => simp [read_battery_termux, hro, hp] at h
          | .absent =>
            simp [read_battery_termux, hro, hp] at h
            simp [← h]
          | .numeric v =>
            simp [read_battery_termux, hro, hp] at h
            simp [← h]
      · simp [read_battery_termux, hro] at h
  refine ⟨hps, hsy, htx, ?_, ?_⟩
  · intro run data s hnone h
    match run with
    | none => simp [read_battery_termux] at h
    | some (rc, out) =>
      by_cases hro : (rc == 0 && !out.isEmpty) = true
      · match hp : data.percentage with
        | .malformed => simp [read_battery_termux, hro, hp] at h
        | .absent =>
          simp [read_battery_termux, hro, hp] at h
          simp [← h, pyBoolOpt, hnone]
        | .numeric v =>
          simp [read_battery_termux, hro, hp] at h
          simp [← h, pyBoolOpt, hnone]
      · simp [read_battery_termux, hro] at h
  · intro p avail sensors bdir cands run parsed s h
    rcases gbs_result_from_adapter p _ _ _ s h with h1 | h2 | h3
    · exact hps avail sensors s h1
    · exact hsy bdir cands s h2
    · exact htx run parsed s h3

/-- Witness for C9 at concrete inputs: a psutil reading, a termux JSON
lacking the "plugged" key, and a full probe call, each evaluated. -/
theorem adapters_always_know_plugged_witness :
    read_battery_psutil true (Except.ok (some ⟨some 95, some true, none⟩)) =
      some ⟨some 95, some true, none, "psutil"⟩ ∧
    read_battery_termux (some (0, "\x7b\"percentage\":95\x7d"))
      (some ⟨TermuxPercentage.numeric 95, none⟩) =
      some ⟨some 95, some false, none, "termux-battery-status"⟩ ∧
    (⟨some 95, some false, none, "termux-battery-status"⟩ : Snapshot).power_plugged =
      some false :=
  ⟨by rfl, by rfl,
    adapters_always_know_plugged.2.2.2.1 (some (0, "\x7b\"percentage\":95\x7d"))
      ⟨TermuxPercentage.numeric 95, none⟩
      ⟨some 95, some false, none, "termux-battery-status"⟩ rfl (by rfl)⟩

/-- `format_time_left` (lines 204-213).  The two guards are Python
conditional expressions `(secs == SENTINEL) if psutil else -1`: when the
psutil import failed the guard value is the constant `-1`, which is truthy.
`//` and `%` are Python floor division and floor modulus (`Int.fdiv`,
`Int.fmod`). -/
def format_time_left (psutilAvailable : Bool)
    (powerTimeUnlimited powerTimeUnknown : Int) (secs : Option Int) : String :=
  match secs with
  | none => "unknown"
  | some s =>
    if (if psutilAvailable then s == powerTimeUnlimited else pyTruthyInt (-1)) then
      "unlimited"
    else if (if psutilAvailable then s == powerTimeUnknown else pyTruthyInt (-1)) then
      "unknown"
    else
      toString (Int.fdiv s 3600) ++ "h " ++ toString (Int.fdiv (Int.fmod s 3600) 60) ++ "m"

/-- C10: when the psutil import failed, `format_time_left` returns
"unlimited" for every non-None integer input, because the first guard's
else-branch is the truthy constant `-1`; the sentinel values are never
consulted in that case (the result does not depend on them). -/
theorem format_time_left_without_psutil :
    (∀ u k s : Int, format_time_left false u k (some s) = "unlimited") ∧
    (∀ (u u' k k' : Int) (secs : Option Int),
      format_time_left false u k secs = format_time_left false u' k' secs) := by
  constructor
  · intro u k s; rfl
  · intro u u' k k' secs; cases secs <;> rfl

/-- Python's `round` to zero decimals as used by the `"\x7b:.0f\x7d"` format:
round half to even. -/
def roundHalfEven (q : ℚ) : Int :=
  let f := Int.fdiv q.num (q.den : Int)
  let t := 2 * (q.num - f * (q.den : Int))
  if t < (q.den : Int) then f
  else if (q.den : Int) < t then f + 1
  else if f % 2 = 0 then f else f + 1

/-- The `f"\x7bpct:.0f\x7d%"` rendering of a percent value. -/
def formatPercent (q : ℚ) : String := toString (roundHalfEven q) ++ "%"

/-- `snapshot_text` (lines 216-230): the status-command reply text derived
from an optional snapshot.  Note the Python truthiness chain
`if plugged / elif plugged is False / else`, giving a third "Unknown" token
when plugged is None. -/
def snapshot_text (snap : Option Snapshot) : String :=
  match snap with
  | none => "Battery information not available."
  | some s =>
    let pct_str := match s.percent with
      | some p => formatPercent p
      | none => "n/a"
    let status := match s.power_plugged with
      | some true => "Power ON"
      | some false => "Power OFF"
      | none => "Unknown"
    status ++ " - Battery: " ++ pct_str

/-- C8 counterexample: an absent snapshot does not yield the text
"unavailable"; the code's fixed reply is "Battery information not
available.". -/
theorem snapshot_text_absent_literal_counterexample :
    snapshot_text none ≠ "unavailable" ∧
    snapshot_text none = "Battery information not available." :=
  ⟨by decide, rfl⟩

/-- C8 (amended): an absent snapshot yields the fixed reply "Battery
information not available."; otherwise the reply is
"<Power ON|Power OFF> - Battery: <percent>%" with the token selected by the
plugged value, and "n/a" in place of "<percent>%" when percent is absent
(snapshots with an unknown plugged value use a third token, "Unknown"). -/
theorem snapshot_text_spec :
    snapshot_text none = "Battery information not available." ∧
    (∀ (s : Snapshot) (p : ℚ), s.power_plugged = some true → s.percent = some p →
      snapshot_text (some s) = "Power ON - Battery: " ++ formatPercent p) ∧
    (∀ (s : Snapshot) (p : ℚ), s.power_plugged = some false → s.percent = some p →
      snapshot_text (some s) = "Power OFF - Battery: " ++ formatPercent p) ∧
    (∀ s : Snapshot, s.power_plugged = some true → s.percent = none →
      snapshot_text (some s) = "Power ON - Battery: n/a") ∧
    (∀ s : Snapshot, s.power_plugged = some false → s.percent = none →
      snapshot_text (some s) = "Power OFF - Battery: n/a") ∧
    (∀ (s : Snapshot) (p : ℚ), s.power_plugged = none → s.percent = some p →
      snapshot_text (some s) = "Unknown - Battery: " ++ formatPercent p) := by
  refine ⟨rfl, ?_, ?_, ?_, ?_, ?_⟩
  · intro s p h1 h2; simp [snapshot_text, h1, h2]
  · intro s p h1 h2; simp [snapshot_text, h1, h2]
  · intro s h1 h2; simp [snapshot_text, h1, h2]
  · intro s h1 h2; simp [snapshot_text, h1, h2]
  · intro s p h1 h2; simp [snapshot_text, h1, h2]

/-- Witness for C8's amended theorem at a concrete snapshot. -/
theorem snapshot_text_spec_witness :
    (⟨some 95, some true, none, "psutil"⟩ : Snapshot).power_plugged = some true ∧
    (⟨some 95, some true, none, "psutil"⟩ : Snapshot).percent = some 95 ∧
    snapshot_text (some ⟨some 95, some true, none, "psutil"⟩) =
      "Power ON - Battery: " ++ formatPercent 95 ∧
    formatPercent 95 = "95%" :=
  ⟨rfl, rfl,
    snapshot_text_spec.2.1 ⟨some 95, some true, none, "psutil"⟩ 95 rfl rfl,
    by decide⟩

/-- The persisted `data.json` record, restricted to the fields the program
reads and writes (`default_state`, lines 236-244). -/
structure PersistedJson where
  platform : String
  bot_token : Option String
  mode : String
  admin_ids : List Int
  registered_ids : List Int
  poll_interval : Int
  deriving DecidableEq

/-- The two files the persistence code touches: the canonical `data.json`
and the temporary `data.json.tmp`. -/
structure FS where
  data_json : Option PersistedJson
  temp_json : Option PersistedJson
  deriving DecidableEq

/-- `safe_write_json` (lines 65-73): serialize to the temporary file, then
`os.replace` it over the canonical path (an atomic rename, which removes the
temporary name). -/
def safe_write_json (fs : FS) (d : PersistedJson) : FS :=
  let afterTemp : FS := { fs with temp_json := some d }
  { afterTemp with data_json := afterTemp.temp_json, temp_json := none }

/-- The in-memory runtime state of `PowerMonitorBot` relevant to the
registry: `registered_ids` and `admin_ids` are Python sets, `mode` the mode
string, plus the fields `_persist_registered` writes back. -/
structure BotState where
  platform : String
  token : String
  mode : String
  admin_ids : Finset Int
  registered_ids : Finset Int
  poll_interval : Int
  deriving DecidableEq

/-- The full-state record `_persist_registered` (lines 568-583) builds before
writing: every modelled field of the prior file content is overwritten from
the in-memory state (`list(...)` of a Python set is modelled as the sorted
element list). -/
def serializeState (b : BotState) : PersistedJson :=
  { platform := b.platform
    bot_token := some b.token
    mode := b.mode
    admin_ids := b.admin_ids.sort (· ≤ ·)
    registered_ids := b.registered_ids.sort (· ≤ ·)
    poll_interval := b.poll_interval }

/-- `_persist_registered`: build the record and hand it to
`safe_write_json`. -/
def persist_registered (b : BotState) (fs : FS) : FS :=
  safe_write_json fs (serializeState b)

/-- The program's reload path for a persisted record: `main` (lines 676-714)
exits when the token is falsy, `__init__` (lines 370-387) rebuilds the id
sets keeping only truthy ids, and `main` then re-adds every persisted id
unfiltered. -/
def reloadState (cfg : PersistedJson) : Option BotState :=
  match cfg.bot_token with
  | none => none
  | some tok =>
    if !pyTruthyStr tok then none
    else
      some { platform := cfg.platform
             token := tok
             mode := cfg.mode
             admin_ids :=
               (cfg.admin_ids.filter (fun x => pyTruthyInt x)).toFinset ∪
                 cfg.admin_ids.toFinset
             registered_ids :=
               (cfg.registered_ids.filter (fun x => pyTruthyInt x)).toFinset ∪
                 cfg.registered_ids.toFinset
             poll_interval := cfg.poll_interval }

/-- The `register` callback's mutation (line 513): `registered_ids.add(cid)`. -/
def registerOp (b : BotState) (cid : Int) : BotState :=
  { b with registered_ids := insert cid b.registered_ids }

/-- The `unregister` handler's mutation (line 448):
`registered_ids.remove(cid)` when present. -/
def unregisterOp (b : BotState) (cid : Int) : BotState :=
  { b with registered_ids := b.registered_ids.erase cid }

/-- `_reconfigure_console`'s runtime-field update (lines 593-597): replace
mode, admin set, and poll interval. -/
def reconfigureOp (b : BotState) (newMode : String) (newAdmins : Finset Int)
    (newPollInterval : Int) : BotState :=
  { b with mode := newMode, admin_ids := newAdmins,
           poll_interval := newPollInterval }

/-- Persist-then-reload recovers the logical subscriber set, admin set, and
mode of an in-memory state. -/
def persistRoundTrip (b : BotState) : Prop :=
  (reloadState (serializeState b)).map BotState.registered_ids = some b.registered_ids ∧
  (reloadState (serializeState b)).map BotState.admin_ids = some b.admin_ids ∧
  (reloadState (serializeState b)).map BotState.mode = some b.mode

theorem filter_toFinset_union (l : List Int) :
    ((l.filter (fun x => pyTruthyInt x)).toFinset ∪ l.toFinset) = l.toFinset := by
  apply Finset.union_eq_right.mpr
  intro x hx
  rw [List.mem_toFinset] at hx ⊢
  exact (List.mem_filter.mp hx).1

theorem reload_of_serialize (b : BotState) (h : pyTruthyStr b.token = true) :
    persistRoundTrip b := by
  refine ⟨?_, ?_, ?_⟩ <;>
    simp [persistRoundTrip, reloadState, serializeState, h,
      filter_toFinset_union, Finset.sort_toFinset]

/-- C5: every mutating registry operation (register, unregister,
reconfigure) persists by writing the serialized full state to the temporary
file and renaming it over the canonical file — after the persist the
canonical file holds exactly the serialized state and no temporary file
remains — and reloading the persisted file recovers the in-memory subscriber
set, admin set, and mode exactly. -/
theorem registry_persist_roundtrip :
    ∀ (b : BotState) (fs : FS) (cid : Int) (m : String) (ads : Finset Int)
      (pInt : Int),
      (persist_registered b fs).data_json = some (serializeState b) ∧
      (persist_registered b fs).temp_json = none ∧
      (pyTruthyStr b.token = true →
        persistRoundTrip b ∧
        persistRoundTrip (registerOp b cid) ∧
        persistRoundTrip (unregisterOp b cid) ∧
        persistRoundTrip (reconfigureOp b m ads pInt)) := by
  intro b fs cid m ads pInt
  refine ⟨rfl, rfl, fun h => ⟨?_, ?_, ?_, ?_⟩⟩ <;>
    exact reload_of_serialize _ h

/-- Witness for C5 at a concrete state: persisting after a registration and
reloading recovers the sets and mode. -/
theorem registry_persist_roundtrip_witness :
    pyTruthyStr "123:ABC" = true ∧
    persistRoundTrip (registerOp ⟨"linux", "123:ABC", "multi", {7}, {1, 2}, 5⟩ 3) :=
  ⟨by decide,
    ((registry_persist_roundtrip ⟨"linux", "123:ABC", "multi", {7}, {1, 2}, 5⟩
      ⟨none, none⟩ 3 "admin" {9} 10).2.2 (by decide)).2.1⟩

/-- `notifyLoop`: the `for cid in recipients` loop of `_notify_all`
(lines 607-611); each delivery attempt's outcome is recorded and a caught
failure (`Except.error`) does not stop the iteration. -/
def notifyLoop (send : Int → Except String Unit) :
    List Int → List (Int × Except String Unit)
  | [] => []
  | cid :: rest => (cid, send cid) :: notifyLoop send rest

/-- `_notify_all` (lines 602-611): the recipient list is the registered set
in "multi" mode and the admin set otherwise; an empty recipient list returns
before any delivery attempt. -/
def notify_all (mode : String) (registered_ids admin_ids : Finset Int)
    (send : Int → Except String Unit) : List (Int × Except String Unit) :=
  let recipients :=
    if mode == "multi" then registered_ids.sort (· ≤ ·)
    else admin_ids.sort (· ≤ ·)
  if recipients.isEmpty then [] else notifyLoop send recipients

theorem notifyLoop_eq_map (send : Int → Except String Unit) (l : List Int) :
    notifyLoop send l = l.map (fun cid => (cid, send cid)) := by
  induction l with
  | nil => rfl
  | cons c t ih => simp [notifyLoop, ih]

theorem notify_all_eq_map (mode : String) (r a : Finset Int)
    (send : Int → Except String Unit) :
    notify_all mode r a send =
      ((if mode == "multi" then r else a).sort (· ≤ ·)).map
        (fun cid => (cid, send cid)) := by
  by_cases hm : (mode == "multi") = true <;>
  · simp only [notify_all, hm, if_true, if_false, Bool.false_eq_true]
    split
    · rename_i he
      rw [List.isEmpty_iff] at he
      simp [he]
    · exact notifyLoop_eq_map _ _

/-- C6: the notifier attempts delivery to each recipient of the mode's
recipient set exactly once (the attempted-id list is duplicate-free and
ranges over exactly that set), the attempt list does not depend on delivery
outcomes (a caught failure never prevents the remaining attempts), each
recipient's outcome is its own delivery result, and an empty recipient set
yields zero attempts. -/
theorem notify_all_spec :
    ∀ (mode : String) (r a : Finset Int) (send : Int → Except String Unit),
      notify_all mode r a send =
        ((if mode == "multi" then r else a).sort (· ≤ ·)).map
          (fun cid => (cid, send cid)) ∧
      ((notify_all mode r a send).map Prod.fst).Nodup ∧
      (∀ cid : Int,
        cid ∈ (notify_all mode r a send).map Prod.fst ↔
        cid ∈ (if mode == "multi" then r else a)) ∧
      (∀ send' : Int → Except String Unit,
        (notify_all mode r a send).map Prod.fst =
          (notify_all mode r a send').map Prod.fst) ∧
      notify_all mode ∅ ∅ send = [] := by
  intro mode r a send
  have hfst : (notify_all mode r a send).map Prod.fst =
      (if mode == "multi" then r else a).sort (· ≤ ·) := by
    rw [notify_all_eq_map, List.map_map]
    have hc : (Prod.fst ∘ fun cid : Int => (cid, send cid)) = id := rfl
    rw [hc, List.map_id]
  refine ⟨notify_all_eq_map mode r a send, ?_, ?_, ?_, ?_⟩
  · rw [hfst]; exact Finset.sort_nodup _ _
  · intro cid; rw [hfst]; exact Finset.mem_sort _
  · intro send'
    rw [hfst]
    have hfst' : (notify_all mode r a send').map Prod.fst =
        (if mode == "multi" then r else a).sort (· ≤ ·) := by
      rw [notify_all_eq_map, List.map_map]
      have hc : (Prod.fst ∘ fun cid : Int => (cid, send' cid)) = id := rfl
      rw [hc, List.map_id]
    rw [hfst']
  · rw [notify_all_eq_map]
    by_cases hm : (mode == "multi") = true <;> simp [hm]

/-- `PowerMonitorBot._is_allowed` (lines 389-393): "multi" mode admits
everyone; otherwise membership in the admin set decides. -/
def is_allowed (mode : String) (admin_ids : Finset Int) (chat_id : Int) : Bool :=
  if mode == "multi" then true
  else decide (chat_id ∈ admin_ids)

/-- C7: the access predicate admits every id in multi-user mode, and in
admin-only mode admits exactly the members of the admin set; in particular
with admin set \x7b7\x7d it admits 7 and rejects 8 in admin mode, and admits
8 in multi mode. -/
theorem is_allowed_spec :
    (∀ (a : Finset Int) (c : Int), is_allowed "multi" a c = true) ∧
    (∀ (a : Finset Int) (c : Int), (is_allowed "admin" a c = true ↔ c ∈ a)) ∧
    is_allowed "admin" {7} 7 = true ∧
    is_allowed "admin" {7} 8 = false ∧
    is_allowed "multi" {7} 8 = true := by
  refine ⟨fun a c => rfl, fun a c => ?_, by decide, by decide, by decide⟩
  simp [is_allowed]

/-- Concrete snapshot used in sanity examples. -/
def exSnap (b : Bool) : Snapshot := ⟨some 50, some b, none, "psutil"⟩

example :
    (monitorLoop (some (exSnap true))
      [some (exSnap true), some (exSnap false), none,
       some (exSnap false), some (exSnap true)]).2 =
    ["⚡ **Power is OFF now**", "🔌 **Power is ON now**"] := by
  rfl
